import Mathlib

/-!
Verification of the Global News Guessing Game core (newstrace).

The repository ships the React client (`ui/src/hooks/useGame.js`,
`ui/src/components/WorldMap.jsx`, ...) together with documentation of the
FastAPI backend (`service/src/global_news_map/services/game.py`,
`services/news.py`, `utils/distance.py`).  The backend sources themselves are
not part of the checkout, so the engine, cache, scoring and distance
functions below are modelled from the specification (and the repository's
API documentation, which the spec was written against); the client-side
state machine and boundary error mapping are translated directly from the
JavaScript sources.
-/

deriving instance DecidableEq for Except

namespace NewsTrace

/-! ## Basic data model (spec §3, `models/schemas.py`) -/

/-- A city entry of the Location Directory (`data/locations.json`). -/
structure Location where
  location_id : String
  city : String
  country : String
  lat : ℚ
  lng : ℚ
deriving DecidableEq, Repr

/-- A news headline as produced by the adapter (`models/schemas.py`). -/
structure Headline where
  title : String
  source : String
  published_at : String
  url : String
deriving DecidableEq, Repr

/-! ## Scoring function (spec §4.4)

Modelled from the spec: the backend scoring routine in
`services/game.py` is not in the checkout.  The spec fixes the anchor
values `score 0 = 1000`, `score d = 0` for `d ≥ 20000`, `score 10000 ≈ 500`,
an integer result in `[0, 1000]` and monotone non-increase, and allows a
linear interpolation between the anchors; the start screen
(`GameStartScreen.jsx`) documents exactly the linear anchors
(0 km → 1000, 10000 km → 500, 20000+ km → 0).  Distances are modelled as
rationals. -/

/-- Modelled from the spec: `score(distance_km)` — linear interpolation
between 1000 points at 0 km and 0 points at 20000 km, clamped to
`[0, 1000]` and rounded down to an integer. -/
def score (d : ℚ) : ℤ :=
  max 0 (min 1000 ⌊1000 * (20000 - d) / 20000⌋)

/-! ## Game session engine (spec §4.1)

Modelled from the spec: `services/game.py` is not in the checkout.  The
engine's randomness (location sampling) is abstracted as an arbitrary
permutation `perm` of the directory supplied by the caller, and headline
retrieval (cache + adapter) as a function `fetch : Location → Option
Headline`; the great-circle distance routine is abstracted as `distFn`.
Response shapes follow the repository's API documentation and the fields
the client actually reads (`RoundResultModal.jsx`, `WorldMap.jsx`,
`GameResultsScreen.jsx`). -/

/-- Lifecycle state of a session (spec §4.1). -/
inductive SessionState
  | awaitingGuess
  | roundResolved
  | completed
deriving DecidableEq, Repr

/-- The guess fields of a resolved round: guessed coordinates, computed
distance and awarded score (spec §3, Round). -/
structure GuessData where
  lat : ℚ
  lng : ℚ
  distance_km : ℚ
  score : ℤ
deriving DecidableEq, Repr

/-- One headline-guess-score cycle (spec §3, Round). -/
structure Round where
  number : ℕ
  location : Location
  headline : Headline
  result : Option GuessData
deriving DecidableEq, Repr

/-- A game session: id, the N pre-chosen locations, the rounds created so
far, the cumulative score and the lifecycle state (spec §3). -/
structure GameSession where
  sid : String
  locations : List Location
  rounds : List Round
  cumulativeScore : ℤ
  state : SessionState
deriving DecidableEq, Repr

/-- Error taxonomy of the engine (spec §4.1, §7). -/
inductive GameError
  | sessionNotFound
  | gameAlreadyComplete
  | gameNotComplete
  | roundNotResolved
  | roundAlreadyResolved
  | invalidCoordinates
  | insufficientLocations
  | headlinesUnavailable
deriving DecidableEq, Repr

/-- The `GameStartResponse` (`models/schemas.py`, API doc): session id, round
number 1, headline text — no location field. -/
structure StartResponse where
  game_id : String
  current_round_number : ℕ
  headline : String
deriving DecidableEq, Repr

/-- A plain coordinate pair, as in the `guess_location` field read by
`WorldMap.jsx`. -/
structure LatLng where
  lat : ℚ
  lng : ℚ
deriving DecidableEq, Repr

/-- The SubmitGuess response, with the fields the client reads
(`RoundResultModal.jsx`, `WorldMap.jsx`, `useGame.submitGuess`): it is the
first response that carries the round's true location. -/
structure GuessResponse where
  current_round_number : ℕ
  correct_location : Location
  guess_location : LatLng
  distance_km : ℚ
  round_score : ℤ
  is_final_round : Bool
  total_score : ℤ
deriving DecidableEq, Repr

/-- The `NextRoundResponse` (`models/schemas.py`, API doc): round number and
headline only — no location field. -/
structure NextRoundResponse where
  round_number : ℕ
  headline : String
deriving DecidableEq, Repr

/-- One row of the final per-round breakdown (`GameResultsScreen.jsx`). -/
structure RoundSummary where
  round_number : ℕ
  city : String
  country : String
  distance_km : ℚ
  score : ℤ
deriving DecidableEq, Repr

/-- The GetSummary response (`GameResultsScreen.jsx` reads `total_score`,
`max_possible_score`, `average_distance_km`, `rounds_summary`). -/
structure SummaryResponse where
  total_score : ℤ
  max_possible_score : ℤ
  average_distance_km : ℚ
  rounds_summary : List RoundSummary
deriving DecidableEq, Repr

/-- Latitude in [-90, 90] and longitude in [-180, 180] (spec §4.1
SubmitGuess). -/
def validCoords (lat lng : ℚ) : Bool :=
  decide (-90 ≤ lat ∧ lat ≤ 90 ∧ -180 ≤ lng ∧ lng ≤ 180)

/-- Modelled from the spec: `CreateSession` — checks the directory size,
takes the first `n` entries of the sampled permutation `perm` of the
directory, fetches the round-1 headline and returns the id, round number 1
and headline text. -/
def createSession (sid : String) (n : ℕ) (directory perm : List Location)
    (fetch : Location → Option Headline) :
    Except GameError (GameSession × StartResponse) :=
  if directory.length < n then .error .insufficientLocations
  else
    match perm.take n with
    | [] => .error .insufficientLocations
    | loc :: rest =>
      match fetch loc with
      | none => .error .headlinesUnavailable
      | some h =>
        .ok ({ sid := sid, locations := loc :: rest,
               rounds := [{ number := 1, location := loc, headline := h, result := none }],
               cumulativeScore := 0, state := .awaitingGuess },
             { game_id := sid, current_round_number := 1, headline := h.title })

/-- The round `r` with the guess fields filled in: the transition of the
guess fields from absent to present. -/
def resolveRound (r : Round) (glat glng d : ℚ) : Round :=
  { r with result := some ({ lat := glat, lng := glng,
                             distance_km := d, score := score d } : GuessData) }

/-- Whether the current round is the final one. -/
def isFinal (s : GameSession) : Bool :=
  decide (s.locations.length ≤ s.rounds.length)

/-- The session after the current round `r` is scored: the round stores
guess, distance and score, the score is added to the cumulative total, and
the state moves to `RoundResolved`, or `Completed` on the final round. -/
def resolveSession (s : GameSession) (r : Round) (glat glng d : ℚ) : GameSession :=
  { s with
      rounds := s.rounds.dropLast ++ [resolveRound r glat glng d],
      cumulativeScore := s.cumulativeScore + score d,
      state := if isFinal s then SessionState.completed else SessionState.roundResolved }

/-- The SubmitGuess response for round `r`: true location, distance, round
score, final-round flag and running total. -/
def guessResponse (s : GameSession) (r : Round) (glat glng d : ℚ) : GuessResponse :=
  { current_round_number := r.number,
    correct_location := r.location,
    guess_location := { lat := glat, lng := glng },
    distance_km := d,
    round_score := score d,
    is_final_round := isFinal s,
    total_score := s.cumulativeScore + score d }

/-- Modelled from the spec: `SubmitGuess` — validates coordinates, scores
the current round, stores guess/distance/score in the round, adds the score
to the cumulative total and transitions to `RoundResolved` (or `Completed`
on the final round). -/
def submitGuess (distFn : ℚ → ℚ → ℚ → ℚ → ℚ) (s : GameSession)
    (glat glng : ℚ) : Except GameError (GameSession × GuessResponse) :=
  match s.state with
  | .completed => .error .sessionNotFound
  | .roundResolved => .error .roundAlreadyResolved
  | .awaitingGuess =>
    if validCoords glat glng = false then .error .invalidCoordinates
    else
      match s.rounds.getLast? with
      | none => .error .sessionNotFound
      | some r =>
        let d := distFn glat glng r.location.lat r.location.lng
        .ok (resolveSession s r glat glng d, guessResponse s r glat glng d)

/-- Modelled from the spec: `AdvanceRound` — requires `RoundResolved`,
creates the next round from the next pre-chosen location, fetches its
headline and returns round number and headline text. -/
def advanceRound (fetch : Location → Option Headline) (s : GameSession) :
    Except GameError (GameSession × NextRoundResponse) :=
  match s.state with
  | .completed => .error .gameAlreadyComplete
  | .awaitingGuess => .error .roundNotResolved
  | .roundResolved =>
    match s.locations[s.rounds.length]? with
    | none => .error .gameAlreadyComplete
    | some loc =>
      match fetch loc with
      | none => .error .headlinesUnavailable
      | some h =>
        .ok ({ s with
                rounds := s.rounds ++ [{ number := s.rounds.length + 1, location := loc,
                                         headline := h, result := none }],
                state := .awaitingGuess },
             { round_number := s.rounds.length + 1, headline := h.title })

/-- Score recorded in a round (0 while unresolved). -/
def roundScore (r : Round) : ℤ :=
  match r.result with
  | some g => g.score
  | none => 0

/-- Distance recorded in a round (0 while unresolved). -/
def roundDistance (r : Round) : ℚ :=
  match r.result with
  | some g => g.distance_km
  | none => 0

/-- Breakdown row of one round for the summary. -/
def roundSummary (r : Round) : RoundSummary :=
  { round_number := r.number, city := r.location.city,
    country := r.location.country, distance_km := roundDistance r,
    score := roundScore r }

/-- Modelled from the spec: `GetSummary` — requires `Completed`; returns the
per-round breakdown, total score, maximum possible score `N × 1000` and
average distance. -/
def getSummary (s : GameSession) : Except GameError SummaryResponse :=
  match s.state with
  | .completed =>
    .ok { total_score := s.cumulativeScore,
          max_possible_score := (s.locations.length : ℤ) * 1000,
          average_distance_km := (s.rounds.map roundDistance).sum / (s.rounds.length : ℚ),
          rounds_summary := s.rounds.map roundSummary }
  | _ => .error .gameNotComplete

/-! ## Session store (spec §4.1, eviction; §7, store misses) -/

/-- The engine's session store, keyed by session id. -/
abbrev Store := List (String × GameSession)

/-- Find the session stored under an id. -/
def storeLookup (st : Store) (sid : String) : Option GameSession :=
  (st.find? (fun p => p.1 == sid)).map (fun p => p.2)

/-- Remove every entry stored under an id. -/
def storeRemove (st : Store) (sid : String) : Store :=
  st.filter (fun p => !(p.1 == sid))

/-- Replace the session stored under an id. -/
def storeUpdate (st : Store) (sid : String) (s : GameSession) : Store :=
  (sid, s) :: storeRemove st sid

/-- Modelled from the spec: eviction of an inactive session removes its
entry from the store. -/
def evictSession (st : Store) (sid : String) : Store :=
  storeRemove st sid

/-- SubmitGuess against the store: a miss is `SessionNotFound`. -/
def storeSubmitGuess (distFn : ℚ → ℚ → ℚ → ℚ → ℚ) (st : Store) (sid : String)
    (glat glng : ℚ) : Except GameError (Store × GuessResponse) :=
  match storeLookup st sid with
  | none => .error .sessionNotFound
  | some s =>
    match submitGuess distFn s glat glng with
    | .error e => .error e
    | .ok (s2, resp) => .ok (storeUpdate st sid s2, resp)

/-- AdvanceRound against the store: a miss is `SessionNotFound`. -/
def storeAdvanceRound (fetch : Location → Option Headline) (st : Store)
    (sid : String) : Except GameError (Store × NextRoundResponse) :=
  match storeLookup st sid with
  | none => .error .sessionNotFound
  | some s =>
    match advanceRound fetch s with
    | .error e => .error e
    | .ok (s2, resp) => .ok (storeUpdate st sid s2, resp)

/-- GetSummary against the store: a miss is `SessionNotFound`. -/
def storeGetSummary (st : Store) (sid : String) :
    Except GameError SummaryResponse :=
  match storeLookup st sid with
  | none => .error .sessionNotFound
  | some s => getSummary s

/-- Running AdvanceRound as the route layer does: a failed call leaves the
store (and hence every stored round) unchanged. -/
def storeAdvanceRun (fetch : Location → Option Headline) (st : Store)
    (sid : String) : Store × Except GameError NextRoundResponse :=
  match storeAdvanceRound fetch st sid with
  | .error e => (st, .error e)
  | .ok (st2, resp) => (st2, .ok resp)

/-! ## Reachable sessions and the session invariant -/

/-- Sessions reachable through the engine's operations (with arbitrary
sampling, headline fetching and distance computation at every step). -/
inductive Reachable : GameSession → Prop
  | created : ∀ sid n directory perm fetch s resp,
      createSession sid n directory perm fetch = .ok (s, resp) → Reachable s
  | submitted : ∀ distFn s glat glng s2 resp,
      Reachable s → submitGuess distFn s glat glng = .ok (s2, resp) →
      Reachable s2
  | advanced : ∀ fetch s s2 resp,
      Reachable s → advanceRound fetch s = .ok (s2, resp) → Reachable s2

/-- The session invariant: the cumulative score is the sum of the recorded
round scores, the rounds' locations are the prefix of the pre-chosen
locations, bounds on the round count, every recorded score lies in
`[0, 1000]`, an `AwaitingGuess` session ends in an unresolved round, and a
`Completed` session has played all its locations. -/
def WF (s : GameSession) : Prop :=
  s.cumulativeScore = (s.rounds.map roundScore).sum ∧
  s.rounds.map Round.location = s.locations.take s.rounds.length ∧
  1 ≤ s.rounds.length ∧
  s.rounds.length ≤ s.locations.length ∧
  (∀ r ∈ s.rounds, ∀ g, r.result = some g → 0 ≤ g.score ∧ g.score ≤ 1000) ∧
  (s.state = .awaitingGuess →
    ∃ r, s.rounds.getLast? = some r ∧ r.result = none) ∧
  (s.state = .completed → s.rounds.length = s.locations.length)

/-- The session with every location replaced through `g` (rounds and
pre-chosen list alike); used to state that pre-guess responses do not
depend on the locations. -/
def mapLoc (g : Location → Location) (s : GameSession) : GameSession :=
  { s with locations := s.locations.map g,
           rounds := s.rounds.map (fun r => { r with location := g r.location }) }

/-! ## Headline cache (spec §4.2; `services/news.py`)

Modelled from the spec and the architecture document: `services/news.py` is
not in the checkout.  The cache maps a location id to a `(Headline,
cached-at)` pair; on a request the cache is checked first, a live entry
(`now − cached_at < TTL`) is returned without touching the adapter, an
expired entry is deleted and a fresh fetch performed, a successful fetch is
stored with the current timestamp, and a failed fetch caches nothing and
propagates `HeadlinesUnavailable`.  The adapter outcome for the single
attempted fetch is abstracted as `fetched : Option Headline`. -/

/-- A cache entry: the headline and the time it was cached. -/
structure CacheEntry where
  headline : Headline
  cached_at : ℚ
deriving DecidableEq, Repr

/-- The in-memory headline cache, keyed by location id. -/
abbrev Cache := List (String × CacheEntry)

/-- Find the entry cached under a key. -/
def cacheLookup (c : Cache) (key : String) : Option CacheEntry :=
  (c.find? (fun p => p.1 == key)).map (fun p => p.2)

/-- Delete every entry cached under a key. -/
def cacheRemove (c : Cache) (key : String) : Cache :=
  c.filter (fun p => !(p.1 == key))

/-- Store an entry under a key, overwriting any previous entry. -/
def cacheInsert (c : Cache) (key : String) (e : CacheEntry) : Cache :=
  (key, e) :: cacheRemove c key

/-- Outcome of one cache `Get`: the returned headline or error, the cache
afterwards, and how many adapter calls were made. -/
structure GetResult where
  result : Except GameError Headline
  cache : Cache
  adapterCalls : ℕ
deriving Repr

/-- Modelled from the spec: the fetch-and-store path of a cache miss — on
adapter success store `(Headline, now)` and return it; on failure cache
nothing and propagate `HeadlinesUnavailable`. -/
def cacheFetch (c : Cache) (key : String) (now : ℚ)
    (fetched : Option Headline) : GetResult :=
  match fetched with
  | some h =>
    { result := .ok h, cache := cacheInsert c key ⟨h, now⟩, adapterCalls := 1 }
  | none => { result := .error .headlinesUnavailable, cache := c, adapterCalls := 1 }

/-- Modelled from the spec: `Get(locationId)` — a live entry
(`now − cached_at < TTL`) is returned without touching the adapter; an
expired entry is deleted and a fresh fetch performed; a miss fetches. -/
def cacheGet (ttl : ℚ) (c : Cache) (key : String) (now : ℚ)
    (fetched : Option Headline) : GetResult :=
  match cacheLookup c key with
  | some e =>
    if now - e.cached_at < ttl then
      { result := .ok e.headline, cache := c, adapterCalls := 0 }
    else cacheFetch (cacheRemove c key) key now fetched
  | none => cacheFetch c key now fetched

/-- The headline a `Get` would serve from the cache alone: the stored
headline when a live entry exists, `none` when the entry is missing or
expired. -/
def liveEntry (ttl : ℚ) (c : Cache) (key : String) (now : ℚ) : Option Headline :=
  match cacheLookup c key with
  | some e => if now - e.cached_at < ttl then some e.headline else none
  | none => none

/-! ## Client state machine (`useGame.js`, `WorldMap.jsx`) -/

/-- The client-side game state (`useGame.js` line 12):
idle | active | round_complete | game_complete. -/
inductive GState
  | idle
  | active
  | roundComplete
  | gameComplete
deriving DecidableEq, Repr

/-- The client's view of the current round (`useGame.startGame`). -/
structure ClientRound where
  number : ℕ
  headline : String
deriving DecidableEq, Repr

/-- The state held by the `useGame` hook. -/
structure ClientState where
  gameId : Option String
  currentRound : Option ClientRound
  roundNumber : ℕ
  guessPin : Option LatLng
  roundResult : Option GuessResponse
  gameState : GState
  totalScore : ℤ
  errorMsg : Option String
deriving DecidableEq, Repr

/-- Translated from `useGame.placeGuess`: a no-op unless the game state is
`active`; otherwise the pin is set to the clicked coordinates. -/
def placeGuess (s : ClientState) (lat lng : ℚ) : ClientState :=
  if s.gameState ≠ GState.active then s
  else { s with guessPin := some { lat := lat, lng := lng } }

/-- Translated from `MapClickHandler` in `WorldMap.jsx`: the click handler
forwards to `placeGuess` only while `isActive`, and `WorldMap` passes
`isActive := !roundResult`. -/
def mapClick (s : ClientState) (lat lng : ℚ) : ClientState :=
  if s.roundResult.isSome then s else placeGuess s lat lng

/-- JavaScript `String.prototype.includes`: the pattern occurs as a
contiguous substring. -/
def strIncludes (s pat : String) : Bool :=
  decide (pat.data <:+: s.data)

/-- The message the client surfaces for an expired or unknown session
(`useGame.js` lines 69 and 106). -/
def sessionExpiredMsg : String :=
  "Game session expired. Please start a new game."

/-- Translated from the error branch of `useGame.submitGuess` (lines
60–72): a 400 whose detail contains "not found" resets to the start screen
with the session-expired message; any other failure surfaces the detail
text (or a generic message when it is empty). -/
def submitGuessFailure (s : ClientState) (status : ℕ) (detail : String) :
    ClientState :=
  if status == 400 && strIncludes detail "not found" then
    { s with gameState := GState.idle, gameId := none, currentRound := none,
             guessPin := none, errorMsg := some sessionExpiredMsg }
  else
    { s with errorMsg := some (if detail == "" then "Failed to submit guess"
                               else detail) }

/-- Translated from the error branch of `useGame.nextRound` (lines
99–110): a 404 whose detail contains "completed or not found" resets to the
start screen with the session-expired message. -/
def nextRoundFailure (s : ClientState) (status : ℕ) (detail : String) :
    ClientState :=
  if status == 404 && strIncludes detail "completed or not found" then
    { s with gameState := GState.idle, gameId := none, currentRound := none,
             errorMsg := some sessionExpiredMsg }
  else
    { s with errorMsg := some (if detail == "" then "Failed to get next round"
                               else detail) }

/-- Modelled from the spec: the HTTP failure the route layer
(`api/routes.py`, not in the checkout) produces for the guess endpoint —
per the API reference, an unknown or evicted session maps to status 400
with detail "Game not found". -/
def guessEndpointFailure (e : GameError) : ℕ × String :=
  match e with
  | .sessionNotFound => (400, "Game not found")
  | .headlinesUnavailable => (503, "Unable to fetch news at this time")
  | _ => (400, "Invalid request")

/-- Modelled from the spec: the HTTP failure the route layer produces for
the next-round endpoint — an unknown, evicted or completed session maps to
status 404 with detail "Game completed or not found" (the phrase
`useGame.nextRound` tests for). -/
def nextEndpointFailure (e : GameError) : ℕ × String :=
  match e with
  | .sessionNotFound => (404, "Game completed or not found")
  | .gameAlreadyComplete => (404, "Game completed or not found")
  | .headlinesUnavailable => (503, "Unable to fetch news at this time")
  | _ => (400, "Invalid request")

/-! ## Great-circle distance (spec §4.4; `utils/distance.py`)

Modelled from the spec: the standard haversine formula on a mean Earth
radius of 6371 km, over idealised reals. -/

/-- Modelled from the spec: haversine great-circle distance in km between
two (latitude, longitude) pairs given in degrees. -/
noncomputable def haversine (lat1 lng1 lat2 lng2 : ℝ) : ℝ :=
  let phi1 := lat1 * Real.pi / 180
  let phi2 := lat2 * Real.pi / 180
  let dphi := (lat2 - lat1) * Real.pi / 180
  let dlng := (lng2 - lng1) * Real.pi / 180
  let a := Real.sin (dphi / 2) ^ 2 +
    Real.cos phi1 * Real.cos phi2 * Real.sin (dlng / 2) ^ 2
  2 * 6371 * Real.arcsin (Real.sqrt a)

/-! ## Concrete data for witnesses -/

/-- London (coordinates rounded to whole degrees). -/
def demoLoc1 : Location :=
  { location_id := "london", city := "London", country := "United Kingdom",
    lat := 52, lng := 0 }

/-- New York (coordinates rounded to whole degrees). -/
def demoLoc2 : Location :=
  { location_id := "new-york", city := "New York", country := "United States",
    lat := 41, lng := -74 }

/-- A sample headline. -/
def demoHeadline : Headline :=
  { title := "Major Infrastructure Project Announced",
    source := "BBC News", published_at := "2025-01-15T14:30:00Z",
    url := "https://www.bbc.com/news/example-article" }

/-- A fetch stub that always succeeds with the sample headline. -/
def demoFetch : Location → Option Headline := fun _ => some demoHeadline

/-- A distance stub. -/
def demoDist : ℚ → ℚ → ℚ → ℚ → ℚ := fun _ _ _ _ => 0

/-- The session `createSession "g1" 2 [demoLoc1, demoLoc2] [demoLoc1,
demoLoc2] demoFetch` produces. -/
def demoSession : GameSession :=
  { sid := "g1", locations := [demoLoc1, demoLoc2],
    rounds := [{ number := 1, location := demoLoc1, headline := demoHeadline,
                 result := none }],
    cumulativeScore := 0, state := .awaitingGuess }

/-- The start response of `demoSession`. -/
def demoStart : StartResponse :=
  { game_id := "g1", current_round_number := 1, headline := demoHeadline.title }

/-- The state of `demoSession` after a perfect guess on round 1 (not final). -/
def demoSession2 : GameSession :=
  { sid := "g1", locations := [demoLoc1, demoLoc2],
    rounds := [{ number := 1, location := demoLoc1, headline := demoHeadline,
                 result := some ({ lat := 0, lng := 0, distance_km := 0,
                                   score := 1000 } : GuessData) }],
    cumulativeScore := 1000, state := .roundResolved }

/-- The guess response produced together with `demoSession2`. -/
def demoResp : GuessResponse :=
  { current_round_number := 1, correct_location := demoLoc1,
    guess_location := { lat := 0, lng := 0 }, distance_km := 0,
    round_score := 1000, is_final_round := false, total_score := 1000 }

/-- A one-round session, as created with `n = 1`. -/
def demoSession1 : GameSession :=
  { sid := "g2", locations := [demoLoc1],
    rounds := [{ number := 1, location := demoLoc1, headline := demoHeadline,
                 result := none }],
    cumulativeScore := 0, state := .awaitingGuess }

/-- The start response of `demoSession1`. -/
def demoStart2 : StartResponse :=
  { game_id := "g2", current_round_number := 1, headline := demoHeadline.title }

/-- The state of `demoSession1` after a perfect guess on its final round. -/
def demoCompleted : GameSession :=
  { sid := "g2", locations := [demoLoc1],
    rounds := [{ number := 1, location := demoLoc1, headline := demoHeadline,
                 result := some ({ lat := 0, lng := 0, distance_km := 0,
                                   score := 1000 } : GuessData) }],
    cumulativeScore := 1000, state := .completed }

/-- The guess response produced together with `demoCompleted`. -/
def demoRespFinal : GuessResponse :=
  { current_round_number := 1, correct_location := demoLoc1,
    guess_location := { lat := 0, lng := 0 }, distance_km := 0,
    round_score := 1000, is_final_round := true, total_score := 1000 }

/-- The session created from the permutation `[demoLoc2, demoLoc1]`. -/
def demoSessionB : GameSession :=
  { sid := "g1", locations := [demoLoc2, demoLoc1],
    rounds := [{ number := 1, location := demoLoc2, headline := demoHeadline,
                 result := none }],
    cumulativeScore := 0, state := .awaitingGuess }

/-- A client state in the middle of an active round. -/
def demoClient : ClientState :=
  { gameId := some "g1",
    currentRound := some { number := 1, headline := demoHeadline.title },
    roundNumber := 1, guessPin := none, roundResult := none,
    gameState := GState.active, totalScore := 0, errorMsg := none }

/-- A client state showing a round result (`round_complete`). -/
def demoClientDone : ClientState :=
  { gameId := some "g1",
    currentRound := some { number := 1, headline := demoHeadline.title },
    roundNumber := 1, guessPin := some { lat := 0, lng := 0 },
    roundResult := some demoResp,
    gameState := GState.roundComplete, totalScore := 1000, errorMsg := none }

theorem score_nonneg (d : ℚ) : 0 ≤ score d :=
  le_max_left 0 _

theorem score_le_1000 (d : ℚ) : score d ≤ 1000 := by
  unfold score
  have h : min 1000 ⌊1000 * (20000 - d) / 20000⌋ ≤ 1000 := min_le_left _ _
  omega

theorem score_zero : score 0 = 1000 := by
  unfold score
  norm_num

theorem score_of_far {d : ℚ} (h : 20000 ≤ d) : score d = 0 := by
  unfold score
  have h1 : (1000 : ℚ) * (20000 - d) / 20000 ≤ 0 := by
    apply div_nonpos_of_nonpos_of_nonneg
    · nlinarith
    · norm_num
  have h2 : ⌊1000 * (20000 - d) / 20000⌋ ≤ 0 := by
    calc ⌊1000 * (20000 - d) / 20000⌋ ≤ ⌊(0 : ℚ)⌋ := Int.floor_le_floor h1
    _ = 0 := Int.floor_zero
  omega

theorem score_10000 : score 10000 = 500 := by
  unfold score
  norm_num

theorem score_antitone {d1 d2 : ℚ} (h : d1 ≤ d2) : score d2 ≤ score d1 := by
  unfold score
  have hq : (1000 : ℚ) * (20000 - d2) / 20000 ≤ 1000 * (20000 - d1) / 20000 := by
    apply div_le_div_of_nonneg_right _ (by norm_num)
    nlinarith
  have hf : ⌊(1000 : ℚ) * (20000 - d2) / 20000⌋ ≤ ⌊(1000 : ℚ) * (20000 - d1) / 20000⌋ :=
    Int.floor_le_floor hq
  omega

/-! ### Inversion lemmas for the engine operations -/

theorem createSession_ok {sid : String} {n : ℕ} {directory perm : List Location}
    {fetch : Location → Option Headline} {s : GameSession} {resp : StartResponse}
    (h : createSession sid n directory perm fetch = .ok (s, resp)) :
    ∃ loc rest h0, ¬ directory.length < n ∧ perm.take n = loc :: rest ∧
      fetch loc = some h0 ∧
      s = { sid := sid, locations := loc :: rest,
            rounds := [{ number := 1, location := loc, headline := h0, result := none }],
            cumulativeScore := 0, state := .awaitingGuess } ∧
      resp = { game_id := sid, current_round_number := 1, headline := h0.title } := by
  unfold createSession at h
  split at h
  · exact absurd h (by simp)
  · rename_i hlt
    split at h
    · exact absurd h (by simp)
    · rename_i loc rest htake
      split at h
      · exact absurd h (by simp)
      · rename_i h0 hf
        simp only [Except.ok.injEq, Prod.mk.injEq] at h
        exact ⟨loc, rest, h0, hlt, htake, hf, h.1.symm, h.2.symm⟩

theorem submitGuess_ok {distFn : ℚ → ℚ → ℚ → ℚ → ℚ} {s s2 : GameSession}
    {glat glng : ℚ} {resp : GuessResponse}
    (h : submitGuess distFn s glat glng = .ok (s2, resp)) :
    s.state = .awaitingGuess ∧ validCoords glat glng = true ∧
      ∃ r, s.rounds.getLast? = some r ∧
        s2 = resolveSession s r glat glng
          (distFn glat glng r.location.lat r.location.lng) ∧
        resp = guessResponse s r glat glng
          (distFn glat glng r.location.lat r.location.lng) := by
  unfold submitGuess at h
  split at h
  · exact absurd h (by simp)
  · exact absurd h (by simp)
  · rename_i hst
    split at h
    · exact absurd h (by simp)
    · rename_i hv
      split at h
      · exact absurd h (by simp)
      · rename_i r hr
        simp only [Except.ok.injEq, Prod.mk.injEq] at h
        exact ⟨hst, by simpa using hv, r, hr, h.1.symm, h.2.symm⟩

theorem advanceRound_ok {fetch : Location → Option Headline} {s s2 : GameSession}
    {resp : NextRoundResponse}
    (h : advanceRound fetch s = .ok (s2, resp)) :
    s.state = .roundResolved ∧
      ∃ loc h0, s.locations[s.rounds.length]? = some loc ∧ fetch loc = some h0 ∧
        s2 = { s with
                rounds := s.rounds ++
                  [{ number := s.rounds.length + 1, location := loc,
                     headline := h0, result := none }],
                state := .awaitingGuess } ∧
        resp = { round_number := s.rounds.length + 1, headline := h0.title } := by
  unfold advanceRound at h
  split at h
  · exact absurd h (by simp)
  · exact absurd h (by simp)
  · rename_i hst
    split at h
    · exact absurd h (by simp)
    · rename_i loc hloc
      split at h
      · exact absurd h (by simp)
      · rename_i h0 hf
        simp only [Except.ok.injEq, Prod.mk.injEq] at h
        exact ⟨hst, loc, h0, hloc, hf, h.1.symm, h.2.symm⟩

/-! ### Preservation of the session invariant -/

theorem createSession_wf {sid : String} {n : ℕ} {directory perm : List Location}
    {fetch : Location → Option Headline} {s : GameSession} {resp : StartResponse}
    (h : createSession sid n directory perm fetch = .ok (s, resp)) : WF s := by
  obtain ⟨loc, rest, h0, _, _, _, hs, _⟩ := createSession_ok h
  subst hs
  refine ⟨by simp [roundScore], by simp, by simp, by simp, ?_, ?_, by simp⟩
  · intro r hr g hg
    simp only [List.mem_singleton] at hr
    subst hr
    simp at hg
  · intro _
    exact ⟨_, rfl, rfl⟩

theorem submitGuess_wf {distFn : ℚ → ℚ → ℚ → ℚ → ℚ} {s s2 : GameSession}
    {glat glng : ℚ} {resp : GuessResponse} (hwf : WF s)
    (h : submitGuess distFn s glat glng = .ok (s2, resp)) :
    WF s2 ∧ s2.cumulativeScore = s.cumulativeScore + resp.round_score ∧
      resp.total_score = s2.cumulativeScore ∧
      s2.locations = s.locations ∧
      s2.rounds.length = s.rounds.length ∧
      s2.rounds.map Round.location = s.rounds.map Round.location ∧
      s2.rounds.dropLast = s.rounds.dropLast := by
  obtain ⟨hsum, hloc, hlen1, hlen2, hbnd, hawait, _⟩ := hwf
  obtain ⟨hst, _, r, hr, hs2, hresp⟩ := submitGuess_ok h
  obtain ⟨r0, hr0, hr0none⟩ := hawait hst
  rw [hr] at hr0
  injection hr0 with hr0
  subst hr0
  have hsplit : s.rounds.dropLast ++ [r] = s.rounds :=
    List.dropLast_append_getLast? r hr
  set d := distFn glat glng r.location.lat r.location.lng with hd
  have hrounds2 : s2.rounds = s.rounds.dropLast ++ [resolveRound r glat glng d] := by
    rw [hs2]; rfl
  have hlocs2 : s2.locations = s.locations := by rw [hs2]; rfl
  have hcum2 : s2.cumulativeScore = s.cumulativeScore + score d := by
    rw [hs2]; rfl
  have hst2 : s2.state = if isFinal s then SessionState.completed
      else SessionState.roundResolved := by rw [hs2]; rfl
  have hsum_old : s.cumulativeScore =
      (s.rounds.dropLast.map roundScore).sum + roundScore r := by
    rw [hsum, ← hsplit]; simp
  have hscore_r : roundScore r = 0 := by simp [roundScore, hr0none]
  have hlen_eq : s2.rounds.length = s.rounds.length := by
    rw [hrounds2, ← hsplit]; simp
  have hmap_eq : s2.rounds.map Round.location = s.rounds.map Round.location := by
    rw [hrounds2]
    conv_rhs => rw [← hsplit]
    simp [resolveRound]
  have hdrop_eq : s2.rounds.dropLast = s.rounds.dropLast := by
    rw [hrounds2]
    conv_rhs => rw [← hsplit]
    simp
  refine ⟨⟨?_, ?_, ?_, ?_, ?_, ?_, ?_⟩, ?_, ?_, hlocs2, hlen_eq, hmap_eq, hdrop_eq⟩
  · rw [hcum2, hrounds2, hsum_old, hscore_r]
    simp [resolveRound, roundScore]
  · rw [hmap_eq, hlocs2, hlen_eq, hloc]
  · omega
  · rw [hlen_eq, hlocs2]; exact hlen2
  · intro r2 hr2 g hg
    rw [hrounds2] at hr2
    rcases List.mem_append.mp hr2 with hmem | hmem
    · exact hbnd r2 ((s.rounds.dropLast_sublist).subset hmem) g hg
    · simp only [List.mem_singleton] at hmem
      subst hmem
      simp only [resolveRound, Option.some.injEq] at hg
      rw [← hg]
      exact ⟨score_nonneg d, score_le_1000 d⟩
  · intro habs
    rw [hst2] at habs
    split at habs <;> simp at habs
  · intro hcomp
    rw [hst2] at hcomp
    rw [hlen_eq, hlocs2]
    split at hcomp
    · rename_i hfin
      simp only [isFinal, decide_eq_true_eq] at hfin
      omega
    · simp at hcomp
  · rw [hcum2, hresp]; rfl
  · rw [hcum2, hresp]; rfl

theorem advanceRound_wf {fetch : Location → Option Headline} {s s2 : GameSession}
    {resp : NextRoundResponse} (hwf : WF s)
    (h : advanceRound fetch s = .ok (s2, resp)) :
    WF s2 ∧ s2.locations = s.locations ∧
      s2.cumulativeScore = s.cumulativeScore := by
  obtain ⟨hsum, hloc, hlen1, hlen2, hbnd, _, _⟩ := hwf
  obtain ⟨hst, loc, h0, hget, hf, hs2, hresp⟩ := advanceRound_ok h
  have hlt : s.rounds.length < s.locations.length :=
    (List.getElem?_eq_some.mp hget).1
  have hrounds2 : s2.rounds = s.rounds ++
      [{ number := s.rounds.length + 1, location := loc,
         headline := h0, result := none }] := by rw [hs2]
  have hlocs2 : s2.locations = s.locations := by rw [hs2]
  have hcum2 : s2.cumulativeScore = s.cumulativeScore := by rw [hs2]
  have hst2 : s2.state = .awaitingGuess := by rw [hs2]
  refine ⟨⟨?_, ?_, ?_, ?_, ?_, ?_, ?_⟩, hlocs2, hcum2⟩
  · rw [hcum2, hrounds2, hsum]
    simp [roundScore]
  · rw [hrounds2, hlocs2]
    simp only [List.map_append, List.map_cons, List.map_nil, List.length_append,
      List.length_cons, List.length_nil, Nat.add_zero, Nat.zero_add]
    rw [List.take_succ, hget, ← hloc]
    simp
  · rw [hrounds2]
    simp only [List.length_append, List.length_cons, List.length_nil]
    omega
  · rw [hrounds2, hlocs2]
    simp only [List.length_append, List.length_cons, List.length_nil]
    omega
  · intro r2 hr2 g hg
    rw [hrounds2] at hr2
    rcases List.mem_append.mp hr2 with hmem | hmem
    · exact hbnd r2 hmem g hg
    · simp only [List.mem_singleton] at hmem
      subst hmem
      simp at hg
  · intro _
    rw [hrounds2]
    exact ⟨_, List.getLast?_concat _, rfl⟩
  · intro habs
    rw [hst2] at habs
    simp at habs

/-- Every session reachable through the engine satisfies the invariant. -/
theorem reachable_wf {s : GameSession} (h : Reachable s) : WF s := by
  induction h with
  | created sid n directory perm fetch s resp hok => exact createSession_wf hok
  | submitted distFn s glat glng s2 resp _ hok ih => exact (submitGuess_wf ih hok).1
  | advanced fetch s s2 resp _ hok ih => exact (advanceRound_wf ih hok).1

/-! ### Store lemmas -/

theorem storeLookup_remove (st : Store) (sid : String) :
    storeLookup (storeRemove st sid) sid = none := by
  induction st with
  | nil => rfl
  | cons p st ih =>
    unfold storeRemove at ih ⊢
    rw [List.filter_cons]
    by_cases hp : p.1 = sid
    · have hb : (p.1 == sid) = true := beq_iff_eq.mpr hp
      rw [hb]
      simpa using ih
    · have hb : (p.1 == sid) = false := beq_eq_false_iff_ne.mpr hp
      rw [hb]
      simp only [Bool.not_false, if_true]
      unfold storeLookup at ih ⊢
      rw [List.find?_cons_of_neg _ (by simp [hb])]
      exact ih

theorem storeSubmitGuess_miss {st : Store} {sid : String}
    {distFn : ℚ → ℚ → ℚ → ℚ → ℚ} {glat glng : ℚ}
    (h : storeLookup st sid = none) :
    storeSubmitGuess distFn st sid glat glng = .error .sessionNotFound := by
  unfold storeSubmitGuess
  rw [h]

theorem storeAdvanceRound_miss {st : Store} {sid : String}
    {fetch : Location → Option Headline}
    (h : storeLookup st sid = none) :
    storeAdvanceRound fetch st sid = .error .sessionNotFound := by
  unfold storeAdvanceRound
  rw [h]

theorem storeGetSummary_miss {st : Store} {sid : String}
    (h : storeLookup st sid = none) :
    storeGetSummary st sid = .error .sessionNotFound := by
  unfold storeGetSummary
  rw [h]

/-- Evaluation rule for a successful SubmitGuess. -/
theorem submitGuess_eq {distFn : ℚ → ℚ → ℚ → ℚ → ℚ} {s : GameSession}
    {glat glng : ℚ} {r : Round}
    (hst : s.state = .awaitingGuess) (hv : validCoords glat glng = true)
    (hr : s.rounds.getLast? = some r) :
    submitGuess distFn s glat glng =
      .ok (resolveSession s r glat glng
            (distFn glat glng r.location.lat r.location.lng),
           guessResponse s r glat glng
            (distFn glat glng r.location.lat r.location.lng)) := by
  unfold submitGuess
  rw [hst]
  simp only [hr, hv]
  simp

/-- The total of every well-formed session is bounded by
`locations.length × 1000`. -/
theorem wf_cumulative_le {s : GameSession} (hwf : WF s) :
    s.cumulativeScore ≤ (s.locations.length : ℤ) * 1000 := by
  obtain ⟨hsum, _, _, hlen2, hbnd, _, _⟩ := hwf
  have h1 : ∀ x ∈ s.rounds.map roundScore, x ≤ (1000 : ℤ) := by
    intro x hx
    obtain ⟨r, hr, hxr⟩ := List.mem_map.mp hx
    cases hres : r.result with
    | none => rw [← hxr]; simp [roundScore, hres]
    | some g =>
      have hb := (hbnd r hr g hres).2
      rw [← hxr]
      simpa [roundScore, hres] using hb
  have h2 : (s.rounds.map roundScore).sum ≤
      ((s.rounds.map roundScore).length : ℤ) • (1000 : ℤ) :=
    List.sum_le_card_nsmul _ _ h1
  rw [List.length_map] at h2
  rw [hsum]
  have h3 : ((s.rounds.length : ℤ)) • (1000 : ℤ) ≤ (s.locations.length : ℤ) * 1000 := by
    rw [smul_eq_mul]
    have : (s.rounds.length : ℤ) ≤ (s.locations.length : ℤ) := by
      exact_mod_cast hlen2
    nlinarith
  omega

end NewsTrace

/-- C2: at every point in a session's lifetime the cumulative score equals
the sum of the resolved rounds' scores; each scored guess adds exactly its
round score to the total (the total is updated incrementally, not
re-derived), the running total returned by SubmitGuess is that cumulative
score, and it never exceeds `N × 1000` for the session's round count `N`. -/
theorem cumulative_score_invariant (s s2 : NewsTrace.GameSession)
    (distFn : ℚ → ℚ → ℚ → ℚ → ℚ) (glat glng : ℚ)
    (resp : NewsTrace.GuessResponse)
    (hs : NewsTrace.Reachable s)
    (hsub : NewsTrace.submitGuess distFn s glat glng = .ok (s2, resp)) :
    s.cumulativeScore = (s.rounds.map NewsTrace.roundScore).sum ∧
      s.cumulativeScore ≤ (s.locations.length : ℤ) * 1000 ∧
      s2.cumulativeScore = s.cumulativeScore + resp.round_score ∧
      resp.total_score = s2.cumulativeScore ∧
      s2.cumulativeScore = (s2.rounds.map NewsTrace.roundScore).sum ∧
      resp.total_score ≤ (s2.locations.length : ℤ) * 1000 := by
  have hwf := NewsTrace.reachable_wf hs
  obtain ⟨hwf2, hinc, htot, _, _, _, _⟩ := NewsTrace.submitGuess_wf hwf hsub
  refine ⟨hwf.1, NewsTrace.wf_cumulative_le hwf, hinc, htot, hwf2.1, ?_⟩
  rw [htot]
  exact NewsTrace.wf_cumulative_le hwf2

/-- Witness for C2 on a concrete two-round session after a perfect first
guess. -/
theorem cumulative_score_invariant_witness :
    NewsTrace.demoSession.cumulativeScore =
        (NewsTrace.demoSession.rounds.map NewsTrace.roundScore).sum ∧
      NewsTrace.demoSession.cumulativeScore ≤
        (NewsTrace.demoSession.locations.length : ℤ) * 1000 ∧
      NewsTrace.demoSession2.cumulativeScore =
        NewsTrace.demoSession.cumulativeScore + NewsTrace.demoResp.round_score ∧
      NewsTrace.demoResp.total_score = NewsTrace.demoSession2.cumulativeScore ∧
      NewsTrace.demoSession2.cumulativeScore =
        (NewsTrace.demoSession2.rounds.map NewsTrace.roundScore).sum ∧
      NewsTrace.demoResp.total_score ≤
        (NewsTrace.demoSession2.locations.length : ℤ) * 1000 :=
  cumulative_score_invariant NewsTrace.demoSession NewsTrace.demoSession2
    NewsTrace.demoDist 0 0 NewsTrace.demoResp
    (NewsTrace.Reachable.created "g1" 2 [NewsTrace.demoLoc1, NewsTrace.demoLoc2]
      [NewsTrace.demoLoc1, NewsTrace.demoLoc2] NewsTrace.demoFetch
      NewsTrace.demoSession NewsTrace.demoStart (by decide))
    (by rw [NewsTrace.submitGuess_eq (r := NewsTrace.demoSession.rounds.head (by decide))
          (by decide) (by decide) (by decide)]
        simp [NewsTrace.demoSession, NewsTrace.demoSession2, NewsTrace.demoDist,
          NewsTrace.resolveSession, NewsTrace.resolveRound, NewsTrace.guessResponse,
          NewsTrace.isFinal, NewsTrace.score_zero, NewsTrace.demoResp,
          NewsTrace.demoLoc1, NewsTrace.demoLoc2, NewsTrace.demoHeadline])

/-- C3: every operation on an unknown or evicted session id fails with
`SessionNotFound`; an evicted id is indistinguishable from a
never-existing id, and the client boundary surfaces the failure as the
session-expired message. -/
theorem session_not_found_contract
    (st st2 : NewsTrace.Store) (sid : String)
    (distFn : ℚ → ℚ → ℚ → ℚ → ℚ) (fetch : NewsTrace.Location → Option NewsTrace.Headline)
    (glat glng : ℚ) (c c2 : NewsTrace.ClientState)
    (hmiss : NewsTrace.storeLookup st2 sid = none) :
    NewsTrace.storeLookup (NewsTrace.evictSession st sid) sid = none ∧
      NewsTrace.storeSubmitGuess distFn st2 sid glat glng =
        .error .sessionNotFound ∧
      NewsTrace.storeAdvanceRound fetch st2 sid = .error .sessionNotFound ∧
      NewsTrace.storeGetSummary st2 sid = .error .sessionNotFound ∧
      NewsTrace.storeSubmitGuess distFn (NewsTrace.evictSession st sid) sid glat glng =
        NewsTrace.storeSubmitGuess distFn st2 sid glat glng ∧
      NewsTrace.storeAdvanceRound fetch (NewsTrace.evictSession st sid) sid =
        NewsTrace.storeAdvanceRound fetch st2 sid ∧
      NewsTrace.storeGetSummary (NewsTrace.evictSession st sid) sid =
        NewsTrace.storeGetSummary st2 sid ∧
      NewsTrace.submitGuessFailure c (NewsTrace.guessEndpointFailure .sessionNotFound).1
          (NewsTrace.guessEndpointFailure .sessionNotFound).2 =
        { c with gameState := NewsTrace.GState.idle, gameId := none,
                 currentRound := none, guessPin := none,
                 errorMsg := some NewsTrace.sessionExpiredMsg } ∧
      NewsTrace.nextRoundFailure c2 (NewsTrace.nextEndpointFailure .sessionNotFound).1
          (NewsTrace.nextEndpointFailure .sessionNotFound).2 =
        { c2 with gameState := NewsTrace.GState.idle, gameId := none,
                  currentRound := none,
                  errorMsg := some NewsTrace.sessionExpiredMsg } := by
  have hev : NewsTrace.storeLookup (NewsTrace.evictSession st sid) sid = none :=
    NewsTrace.storeLookup_remove st sid
  refine ⟨hev, NewsTrace.storeSubmitGuess_miss hmiss,
    NewsTrace.storeAdvanceRound_miss hmiss, NewsTrace.storeGetSummary_miss hmiss,
    ?_, ?_, ?_, ?_, ?_⟩
  · rw [NewsTrace.storeSubmitGuess_miss hev, NewsTrace.storeSubmitGuess_miss hmiss]
  · rw [NewsTrace.storeAdvanceRound_miss hev, NewsTrace.storeAdvanceRound_miss hmiss]
  · rw [NewsTrace.storeGetSummary_miss hev, NewsTrace.storeGetSummary_miss hmiss]
  · have hb : NewsTrace.strIncludes "Game not found" "not found" = true := by decide
    simp [NewsTrace.submitGuessFailure, NewsTrace.guessEndpointFailure, hb]
  · have hb : NewsTrace.strIncludes "Game completed or not found"
        "completed or not found" = true := by decide
    simp [NewsTrace.nextRoundFailure, NewsTrace.nextEndpointFailure, hb]

/-- Witness for C3 on a concrete store, an absent id and concrete client
states. -/
theorem session_not_found_contract_witness :
    NewsTrace.storeLookup
        (NewsTrace.evictSession [("g1", NewsTrace.demoSession)] "gX") "gX" = none ∧
      NewsTrace.storeSubmitGuess NewsTrace.demoDist [] "gX" 0 0 =
        .error .sessionNotFound ∧
      NewsTrace.storeAdvanceRound NewsTrace.demoFetch [] "gX" =
        .error .sessionNotFound ∧
      NewsTrace.storeGetSummary [] "gX" = .error .sessionNotFound ∧
      NewsTrace.storeSubmitGuess NewsTrace.demoDist
          (NewsTrace.evictSession [("g1", NewsTrace.demoSession)] "gX") "gX" 0 0 =
        NewsTrace.storeSubmitGuess NewsTrace.demoDist [] "gX" 0 0 ∧
      NewsTrace.storeAdvanceRound NewsTrace.demoFetch
          (NewsTrace.evictSession [("g1", NewsTrace.demoSession)] "gX") "gX" =
        NewsTrace.storeAdvanceRound NewsTrace.demoFetch [] "gX" ∧
      NewsTrace.storeGetSummary
          (NewsTrace.evictSession [("g1", NewsTrace.demoSession)] "gX") "gX" =
        NewsTrace.storeGetSummary [] "gX" ∧
      NewsTrace.submitGuessFailure NewsTrace.demoClient
          (NewsTrace.guessEndpointFailure .sessionNotFound).1
          (NewsTrace.guessEndpointFailure .sessionNotFound).2 =
        { NewsTrace.demoClient with gameState := NewsTrace.GState.idle,
                                    gameId := none, currentRound := none,
                                    guessPin := none,
                                    errorMsg := some NewsTrace.sessionExpiredMsg } ∧
      NewsTrace.nextRoundFailure NewsTrace.demoClientDone
          (NewsTrace.nextEndpointFailure .sessionNotFound).1
          (NewsTrace.nextEndpointFailure .sessionNotFound).2 =
        { NewsTrace.demoClientDone with gameState := NewsTrace.GState.idle,
                                        gameId := none, currentRound := none,
                                        errorMsg := some NewsTrace.sessionExpiredMsg } :=
  session_not_found_contract [("g1", NewsTrace.demoSession)] [] "gX"
    NewsTrace.demoDist NewsTrace.demoFetch 0 0
    NewsTrace.demoClient NewsTrace.demoClientDone rfl

/-- C5: AdvanceRound on a session already `Completed` fails with
`GameAlreadyComplete`, and the failed call leaves the store — and with it
every round of the session — unchanged. -/
theorem advance_on_completed_contract
    (fetch : NewsTrace.Location → Option NewsTrace.Headline)
    (s : NewsTrace.GameSession) (st : NewsTrace.Store) (sid : String)
    (hs : s.state = .completed)
    (hlook : NewsTrace.storeLookup st sid = some s) :
    NewsTrace.advanceRound fetch s = .error .gameAlreadyComplete ∧
      NewsTrace.storeAdvanceRun fetch st sid =
        (st, .error .gameAlreadyComplete) := by
  have h1 : NewsTrace.advanceRound fetch s = .error .gameAlreadyComplete := by
    unfold NewsTrace.advanceRound
    rw [hs]
  refine ⟨h1, ?_⟩
  unfold NewsTrace.storeAdvanceRun NewsTrace.storeAdvanceRound
  rw [hlook]
  simp [h1]

/-- Witness for C5 on a concrete completed session in a concrete store. -/
theorem advance_on_completed_contract_witness :
    NewsTrace.advanceRound NewsTrace.demoFetch NewsTrace.demoCompleted =
        .error .gameAlreadyComplete ∧
      NewsTrace.storeAdvanceRun NewsTrace.demoFetch
          [("g2", NewsTrace.demoCompleted)] "g2" =
        ([("g2", NewsTrace.demoCompleted)], .error .gameAlreadyComplete) :=
  advance_on_completed_contract NewsTrace.demoFetch NewsTrace.demoCompleted
    [("g2", NewsTrace.demoCompleted)] "g2" rfl (by decide)

/-- C1: for every non-negative distance `d` (km) the scoring function yields
an integer in `[0, 1000]`, with `score 0 = 1000`, `score d = 0` for
`d ≥ 20000`, `score 10000 = 500`, and it is monotonically non-increasing:
`d1 < d2` implies `score d1 ≥ score d2`. -/
theorem score_contract (d e d1 d2 : ℚ) (_hd : 0 ≤ d) (he : 20000 ≤ e)
    (h12 : d1 < d2) :
    (0 ≤ NewsTrace.score d ∧ NewsTrace.score d ≤ 1000) ∧
      NewsTrace.score 0 = 1000 ∧
      NewsTrace.score e = 0 ∧
      NewsTrace.score 10000 = 500 ∧
      NewsTrace.score d2 ≤ NewsTrace.score d1 :=
  ⟨⟨NewsTrace.score_nonneg d, NewsTrace.score_le_1000 d⟩,
    NewsTrace.score_zero, NewsTrace.score_of_far he,
    NewsTrace.score_10000, NewsTrace.score_antitone h12.le⟩

/-- Witness for C1 at concrete distances. -/
theorem score_contract_witness :
    (0 ≤ NewsTrace.score 5570 ∧ NewsTrace.score 5570 ≤ 1000) ∧
      NewsTrace.score 0 = 1000 ∧
      NewsTrace.score 25000 = 0 ∧
      NewsTrace.score 10000 = 500 ∧
      NewsTrace.score 9000 ≤ NewsTrace.score 4000 :=
  score_contract 5570 25000 4000 9000 (by norm_num) (by norm_num) (by norm_num)

namespace NewsTrace

/-- The pre-guess CreateSession response is invariant under relocating
every directory entry through `g` (provided the headline fetch is
relocation-invariant): it carries no location information. -/
theorem createSession_resp_mapLoc (g : Location → Location) (sid : String)
    (n : ℕ) (directory perm : List Location)
    (fetch fetch2 : Location → Option Headline)
    (hg : ∀ loc, fetch2 (g loc) = fetch loc) :
    (createSession sid n (directory.map g) (perm.map g) fetch2).map Prod.snd =
      (createSession sid n directory perm fetch).map Prod.snd := by
  by_cases hlen : directory.length < n
  · simp [createSession, hlen, List.length_map]
  · unfold createSession
    simp only [List.length_map, if_neg hlen]
    rw [← List.map_take]
    cases htake : perm.take n with
    | nil => simp
    | cons loc rest =>
      simp only [List.map_cons]
      rw [hg loc]
      cases hf : fetch loc with
      | none => simp
      | some h0 => rfl

/-- The pre-guess AdvanceRound response is likewise invariant under
relocating every location of the session through `g`. -/
theorem advanceRound_resp_mapLoc (g : Location → Location)
    (fetch fetch2 : Location → Option Headline) (t : GameSession)
    (hg : ∀ loc, fetch2 (g loc) = fetch loc) :
    (advanceRound fetch2 (mapLoc g t)).map Prod.snd =
      (advanceRound fetch t).map Prod.snd := by
  have hst : (mapLoc g t).state = t.state := rfl
  have hlen : (mapLoc g t).rounds.length = t.rounds.length := by
    simp [mapLoc]
  unfold advanceRound
  rw [hst, hlen]
  cases htst : t.state
  case awaitingGuess => rfl
  case completed => rfl
  case roundResolved =>
    have hget : (mapLoc g t).locations[t.rounds.length]? =
        (t.locations[t.rounds.length]?).map g := by
      simp [mapLoc]
    rw [hget]
    cases hloc : t.locations[t.rounds.length]? with
    | none => rfl
    | some loc =>
      rw [Option.map_some']
      simp only [hg loc]
      cases hf : fetch loc with
      | none => simp
      | some h0 => rfl

end NewsTrace

/-- C4: the CreateSession and AdvanceRound responses — everything a client
sees before submitting the round's guess — consist only of the session id,
round number and headline text and are invariant under arbitrarily
relocating every Location; the round's true Location appears first in the
SubmitGuess response. -/
theorem location_not_revealed_pre_guess
    (g : NewsTrace.Location → NewsTrace.Location) (sid : String) (n : ℕ)
    (directory perm : List NewsTrace.Location)
    (fetch fetch2 : NewsTrace.Location → Option NewsTrace.Headline)
    (t s s2 : NewsTrace.GameSession) (distFn : ℚ → ℚ → ℚ → ℚ → ℚ)
    (glat glng : ℚ) (resp : NewsTrace.GuessResponse)
    (hg : ∀ loc, fetch2 (g loc) = fetch loc)
    (hsub : NewsTrace.submitGuess distFn s glat glng = .ok (s2, resp)) :
    (NewsTrace.createSession sid n (directory.map g) (perm.map g) fetch2).map
        Prod.snd =
      (NewsTrace.createSession sid n directory perm fetch).map Prod.snd ∧
      (NewsTrace.advanceRound fetch2 (NewsTrace.mapLoc g t)).map Prod.snd =
        (NewsTrace.advanceRound fetch t).map Prod.snd ∧
      ∃ r, s.rounds.getLast? = some r ∧ resp.correct_location = r.location := by
  obtain ⟨_, _, r, hr, _, hresp⟩ := NewsTrace.submitGuess_ok hsub
  exact ⟨NewsTrace.createSession_resp_mapLoc g sid n directory perm fetch fetch2 hg,
    NewsTrace.advanceRound_resp_mapLoc g fetch fetch2 t hg,
    r, hr, by rw [hresp]; rfl⟩

/-- Witness for C4: relocating both demo cities onto New York changes no
pre-guess response, and the concrete SubmitGuess response carries the true
location. -/
theorem location_not_revealed_pre_guess_witness :
    (NewsTrace.createSession "g1" 2
          ([NewsTrace.demoLoc1, NewsTrace.demoLoc2].map (fun _ => NewsTrace.demoLoc2))
          ([NewsTrace.demoLoc1, NewsTrace.demoLoc2].map (fun _ => NewsTrace.demoLoc2))
          NewsTrace.demoFetch).map Prod.snd =
      (NewsTrace.createSession "g1" 2 [NewsTrace.demoLoc1, NewsTrace.demoLoc2]
          [NewsTrace.demoLoc1, NewsTrace.demoLoc2] NewsTrace.demoFetch).map
        Prod.snd ∧
      (NewsTrace.advanceRound NewsTrace.demoFetch
            (NewsTrace.mapLoc (fun _ => NewsTrace.demoLoc2) NewsTrace.demoSession2)).map
          Prod.snd =
        (NewsTrace.advanceRound NewsTrace.demoFetch NewsTrace.demoSession2).map
          Prod.snd ∧
      ∃ r, NewsTrace.demoSession.rounds.getLast? = some r ∧
        NewsTrace.demoResp.correct_location = r.location :=
  location_not_revealed_pre_guess (fun _ => NewsTrace.demoLoc2) "g1" 2
    [NewsTrace.demoLoc1, NewsTrace.demoLoc2] [NewsTrace.demoLoc1, NewsTrace.demoLoc2]
    NewsTrace.demoFetch NewsTrace.demoFetch NewsTrace.demoSession2
    NewsTrace.demoSession NewsTrace.demoSession2 NewsTrace.demoDist 0 0
    NewsTrace.demoResp (fun _ => rfl)
    (by rw [NewsTrace.submitGuess_eq (r := NewsTrace.demoSession.rounds.head (by decide))
          (by decide) (by decide) (by decide)]
        simp [NewsTrace.demoSession, NewsTrace.demoSession2, NewsTrace.demoDist,
          NewsTrace.resolveSession, NewsTrace.resolveRound, NewsTrace.guessResponse,
          NewsTrace.isFinal, NewsTrace.score_zero, NewsTrace.demoResp,
          NewsTrace.demoLoc1, NewsTrace.demoLoc2, NewsTrace.demoHeadline])

/-- C6: GetSummary succeeds exactly on `Completed` sessions — any other
state yields `GameNotComplete` — and on success returns the per-round
breakdown (location, distance, score), the total score (the sum of the
round scores), the maximum possible score `N × 1000` for the round count
`N`, and the average distance. -/
theorem summary_contract (s t : NewsTrace.GameSession)
    (hs : NewsTrace.Reachable s) (hcomp : s.state = .completed)
    (ht : t.state ≠ .completed) :
    NewsTrace.getSummary t = .error .gameNotComplete ∧
      ∃ summary, NewsTrace.getSummary s = .ok summary ∧
        summary.total_score = (s.rounds.map NewsTrace.roundScore).sum ∧
        summary.max_possible_score = (s.rounds.length : ℤ) * 1000 ∧
        summary.average_distance_km =
          (s.rounds.map NewsTrace.roundDistance).sum / (s.rounds.length : ℚ) ∧
        summary.rounds_summary = s.rounds.map NewsTrace.roundSummary := by
  have hwf := NewsTrace.reachable_wf hs
  have hN : s.rounds.length = s.locations.length := hwf.2.2.2.2.2.2 hcomp
  constructor
  · unfold NewsTrace.getSummary
    cases htst : t.state
    case completed => exact absurd htst ht
    case awaitingGuess => rfl
    case roundResolved => rfl
  · refine ⟨{ total_score := s.cumulativeScore,
              max_possible_score := (s.locations.length : ℤ) * 1000,
              average_distance_km :=
                (s.rounds.map NewsTrace.roundDistance).sum / (s.rounds.length : ℚ),
              rounds_summary := s.rounds.map NewsTrace.roundSummary },
      ?_, hwf.1, ?_, rfl, rfl⟩
    · unfold NewsTrace.getSummary
      rw [hcomp]
    · simp only [hN]

/-- Witness for C6 on a concrete completed one-round session and a concrete
not-yet-complete session. -/
theorem summary_contract_witness :
    NewsTrace.getSummary NewsTrace.demoSession = .error .gameNotComplete ∧
      ∃ summary, NewsTrace.getSummary NewsTrace.demoCompleted = .ok summary ∧
        summary.total_score =
          (NewsTrace.demoCompleted.rounds.map NewsTrace.roundScore).sum ∧
        summary.max_possible_score =
          (NewsTrace.demoCompleted.rounds.length : ℤ) * 1000 ∧
        summary.average_distance_km =
          (NewsTrace.demoCompleted.rounds.map NewsTrace.roundDistance).sum /
            (NewsTrace.demoCompleted.rounds.length : ℚ) ∧
        summary.rounds_summary =
          NewsTrace.demoCompleted.rounds.map NewsTrace.roundSummary :=
  summary_contract NewsTrace.demoCompleted NewsTrace.demoSession
    (NewsTrace.Reachable.submitted NewsTrace.demoDist NewsTrace.demoSession1 0 0
      NewsTrace.demoCompleted NewsTrace.demoRespFinal
      (NewsTrace.Reachable.created "g2" 1 [NewsTrace.demoLoc1] [NewsTrace.demoLoc1]
        NewsTrace.demoFetch NewsTrace.demoSession1 NewsTrace.demoStart2 (by decide))
      (by rw [NewsTrace.submitGuess_eq
            (r := NewsTrace.demoSession1.rounds.head (by decide))
            (by decide) (by decide) (by decide)]
          simp [NewsTrace.demoSession1, NewsTrace.demoCompleted, NewsTrace.demoDist,
            NewsTrace.resolveSession, NewsTrace.resolveRound, NewsTrace.guessResponse,
            NewsTrace.isFinal, NewsTrace.score_zero, NewsTrace.demoRespFinal,
            NewsTrace.demoLoc1, NewsTrace.demoHeadline]))
    rfl (by decide)

/-- C7: CreateSession fails with `InsufficientLocations` whenever the
directory has fewer than `n` entries; on success the session's pre-chosen
locations are exactly `n` distinct entries of the directory (sampling
without replacement, the random permutation abstracted), and therefore no
reachable session with distinct pre-chosen locations ever repeats a
Location across its rounds. -/
theorem create_session_distinct_locations
    (sid sid2 : String) (n n2 : ℕ)
    (directory perm dir2 perm2 : List NewsTrace.Location)
    (fetch fetch2 : NewsTrace.Location → Option NewsTrace.Headline)
    (s : NewsTrace.GameSession) (resp : NewsTrace.StartResponse)
    (s3 : NewsTrace.GameSession)
    (hperm : perm.Perm directory) (hnodup : directory.Nodup)
    (hok : NewsTrace.createSession sid n directory perm fetch = .ok (s, resp))
    (hlt : dir2.length < n2)
    (hs3 : NewsTrace.Reachable s3) (hnd3 : s3.locations.Nodup) :
    NewsTrace.createSession sid2 n2 dir2 perm2 fetch2 =
        .error .insufficientLocations ∧
      s.locations.length = n ∧
      s.locations.Nodup ∧
      (∀ loc ∈ s.locations, loc ∈ directory) ∧
      (s3.rounds.map NewsTrace.Round.location).Nodup := by
  obtain ⟨loc, rest, h0, hlen, htake, _, hs, _⟩ := NewsTrace.createSession_ok hok
  have hsloc : s.locations = perm.take n := by rw [hs, ← htake]
  have hpn : perm.Nodup := hperm.nodup_iff.mpr hnodup
  refine ⟨?_, ?_, ?_, ?_, ?_⟩
  · unfold NewsTrace.createSession
    simp [hlt]
  · rw [hsloc, List.length_take, hperm.length_eq]
    omega
  · rw [hsloc]
    exact hpn.sublist (List.take_sublist n perm)
  · intro l hl
    rw [hsloc] at hl
    exact (hperm.mem_iff).mp (List.take_subset n perm hl)
  · have hwf3 := NewsTrace.reachable_wf hs3
    rw [hwf3.2.1]
    exact hnd3.sublist (List.take_sublist _ _)

/-- Witness for C7 with the two demo cities, a non-trivial permutation, and
an undersized directory. -/
theorem create_session_distinct_locations_witness :
    NewsTrace.createSession "g0" 2 [NewsTrace.demoLoc1] [NewsTrace.demoLoc1]
        NewsTrace.demoFetch = .error .insufficientLocations ∧
      NewsTrace.demoSessionB.locations.length = 2 ∧
      NewsTrace.demoSessionB.locations.Nodup ∧
      (∀ loc ∈ NewsTrace.demoSessionB.locations,
        loc ∈ [NewsTrace.demoLoc1, NewsTrace.demoLoc2]) ∧
      (NewsTrace.demoSession.rounds.map NewsTrace.Round.location).Nodup :=
  create_session_distinct_locations "g1" "g0" 2 2
    [NewsTrace.demoLoc1, NewsTrace.demoLoc2] [NewsTrace.demoLoc2, NewsTrace.demoLoc1]
    [NewsTrace.demoLoc1] [NewsTrace.demoLoc1]
    NewsTrace.demoFetch NewsTrace.demoFetch
    NewsTrace.demoSessionB NewsTrace.demoStart NewsTrace.demoSession
    (by decide) (by decide) (by decide) (by decide)
    (NewsTrace.Reachable.created "g1" 2 [NewsTrace.demoLoc1, NewsTrace.demoLoc2]
      [NewsTrace.demoLoc1, NewsTrace.demoLoc2] NewsTrace.demoFetch
      NewsTrace.demoSession NewsTrace.demoStart (by decide))
    (by decide)

namespace NewsTrace

/-- Deleting a key twice is the same as deleting it once. -/
theorem cacheRemove_idem (c : Cache) (key : String) :
    cacheRemove (cacheRemove c key) key = cacheRemove c key := by
  unfold cacheRemove
  rw [List.filter_filter]
  congr 1
  funext p
  rw [Bool.and_self]

/-- Looking up a key right after storing it returns what was stored. -/
theorem cacheLookup_insert (c : Cache) (key : String) (e : CacheEntry) :
    cacheLookup (cacheInsert c key e) key = some e := by
  unfold cacheLookup cacheInsert
  rw [List.find?_cons_of_pos _ (by simp)]
  rfl

/-- A deleted key is absent. -/
theorem cacheLookup_remove (c : Cache) (key : String) :
    cacheLookup (cacheRemove c key) key = none := by
  induction c with
  | nil => rfl
  | cons p c ih =>
    unfold cacheRemove at ih ⊢
    rw [List.filter_cons]
    by_cases hp : p.1 = key
    · have hb : (p.1 == key) = true := beq_iff_eq.mpr hp
      rw [hb]
      simpa using ih
    · have hb : (p.1 == key) = false := beq_eq_false_iff_ne.mpr hp
      rw [hb]
      simp only [Bool.not_false, if_true]
      unfold cacheLookup at ih ⊢
      rw [List.find?_cons_of_neg _ (by simp [hb])]
      exact ih

/-- Evaluation rule for a `Get` hitting a live entry. -/
theorem cacheGet_eval_hit {ttl now : ℚ} {c : Cache} {key : String}
    {e : CacheEntry} {fetched : Option Headline}
    (hlook : cacheLookup c key = some e) (hlive : now - e.cached_at < ttl) :
    cacheGet ttl c key now fetched =
      { result := .ok e.headline, cache := c, adapterCalls := 0 } := by
  unfold cacheGet
  rw [hlook]
  simp [hlive]

/-- Evaluation rule for a `Get` hitting an expired entry. -/
theorem cacheGet_eval_stale {ttl now : ℚ} {c : Cache} {key : String}
    {e : CacheEntry} {fetched : Option Headline}
    (hlook : cacheLookup c key = some e) (hstale : ¬ now - e.cached_at < ttl) :
    cacheGet ttl c key now fetched = cacheFetch (cacheRemove c key) key now fetched := by
  unfold cacheGet
  rw [hlook]
  simp [hstale]

/-- Evaluation rule for a `Get` missing the cache entirely. -/
theorem cacheGet_eval_missing {ttl now : ℚ} {c : Cache} {key : String}
    {fetched : Option Headline} (hlook : cacheLookup c key = none) :
    cacheGet ttl c key now fetched = cacheFetch c key now fetched := by
  unfold cacheGet
  rw [hlook]

end NewsTrace

/-- C8: a cache `Get` with a live entry returns the stored headline without
an adapter call and leaves the cache unchanged; without a live entry it
makes one adapter call — on success storing `(Headline, now)` over any
stale entry and returning it, on failure caching nothing and propagating
`HeadlinesUnavailable`; consequently any second `Get` within the TTL of a
successful fetch returns the identical headline with no further adapter
call. -/
theorem cache_get_contract (ttl now now2 : ℚ) (c c2 c3 : NewsTrace.Cache)
    (key : String) (e : NewsTrace.CacheEntry) (h : NewsTrace.Headline)
    (fetched fetched2 : Option NewsTrace.Headline)
    (hlook : NewsTrace.cacheLookup c key = some e)
    (hlive : now - e.cached_at < ttl)
    (hmiss2 : NewsTrace.liveEntry ttl c2 key now = none)
    (hmiss3 : NewsTrace.liveEntry ttl c3 key now = none)
    (hfresh : now2 - now < ttl) :
    NewsTrace.cacheGet ttl c key now fetched =
        { result := .ok e.headline, cache := c, adapterCalls := 0 } ∧
      NewsTrace.cacheGet ttl c2 key now (some h) =
        { result := .ok h,
          cache := NewsTrace.cacheInsert c2 key { headline := h, cached_at := now },
          adapterCalls := 1 } ∧
      ((NewsTrace.cacheGet ttl c3 key now none).result =
          .error .headlinesUnavailable ∧
        (NewsTrace.cacheGet ttl c3 key now none).adapterCalls = 1 ∧
        NewsTrace.cacheLookup (NewsTrace.cacheGet ttl c3 key now none).cache key =
          none) ∧
      NewsTrace.cacheGet ttl
          (NewsTrace.cacheInsert c2 key { headline := h, cached_at := now })
          key now2 fetched2 =
        { result := .ok h,
          cache := NewsTrace.cacheInsert c2 key { headline := h, cached_at := now },
          adapterCalls := 0 } := by
  refine ⟨NewsTrace.cacheGet_eval_hit hlook hlive, ?_, ?_, ?_⟩
  · cases hl2 : NewsTrace.cacheLookup c2 key with
    | none => rw [NewsTrace.cacheGet_eval_missing hl2]; rfl
    | some e2 =>
      unfold NewsTrace.liveEntry at hmiss2
      rw [hl2] at hmiss2
      have h2 : (if now - e2.cached_at < ttl then some e2.headline else none) =
          none := hmiss2
      have hstale : ¬ now - e2.cached_at < ttl := by
        intro hcon
        rw [if_pos hcon] at h2
        exact Option.some_ne_none _ h2
      rw [NewsTrace.cacheGet_eval_stale hl2 hstale]
      unfold NewsTrace.cacheFetch NewsTrace.cacheInsert
      rw [NewsTrace.cacheRemove_idem]
  · cases hl3 : NewsTrace.cacheLookup c3 key with
    | none =>
      rw [NewsTrace.cacheGet_eval_missing hl3]
      exact ⟨rfl, rfl, by simpa [NewsTrace.cacheFetch] using hl3⟩
    | some e3 =>
      unfold NewsTrace.liveEntry at hmiss3
      rw [hl3] at hmiss3
      have h3 : (if now - e3.cached_at < ttl then some e3.headline else none) =
          none := hmiss3
      have hstale : ¬ now - e3.cached_at < ttl := by
        intro hcon
        rw [if_pos hcon] at h3
        exact Option.some_ne_none _ h3
      rw [NewsTrace.cacheGet_eval_stale hl3 hstale]
      exact ⟨rfl, rfl, by simpa [NewsTrace.cacheFetch] using
        NewsTrace.cacheLookup_remove c3 key⟩
  · rw [NewsTrace.cacheGet_eval_hit (NewsTrace.cacheLookup_insert c2 key
      { headline := h, cached_at := now }) hfresh]

/-- Witness for C8 on a concrete cache holding one live London entry, and
an empty cache for the miss and failure paths. -/
theorem cache_get_contract_witness :
    NewsTrace.cacheGet 30
          [("london", { headline := NewsTrace.demoHeadline, cached_at := 10 })]
          "london" 10 none =
        { result := .ok
            ({ headline := NewsTrace.demoHeadline,
               cached_at := 10 } : NewsTrace.CacheEntry).headline,
          cache := [("london", { headline := NewsTrace.demoHeadline, cached_at := 10 })],
          adapterCalls := 0 } ∧
      NewsTrace.cacheGet 30 [] "london" 10 (some NewsTrace.demoHeadline) =
        { result := .ok NewsTrace.demoHeadline,
          cache := NewsTrace.cacheInsert [] "london"
            { headline := NewsTrace.demoHeadline, cached_at := 10 },
          adapterCalls := 1 } ∧
      ((NewsTrace.cacheGet 30 [] "london" 10 none).result =
          .error .headlinesUnavailable ∧
        (NewsTrace.cacheGet 30 [] "london" 10 none).adapterCalls = 1 ∧
        NewsTrace.cacheLookup (NewsTrace.cacheGet 30 [] "london" 10 none).cache
          "london" = none) ∧
      NewsTrace.cacheGet 30
          (NewsTrace.cacheInsert [] "london"
            { headline := NewsTrace.demoHeadline, cached_at := 10 })
          "london" 10 none =
        { result := .ok NewsTrace.demoHeadline,
          cache := NewsTrace.cacheInsert [] "london"
            { headline := NewsTrace.demoHeadline, cached_at := 10 },
          adapterCalls := 0 } :=
  cache_get_contract 30 10 10
    [("london", { headline := NewsTrace.demoHeadline, cached_at := 10 })] [] []
    "london" { headline := NewsTrace.demoHeadline, cached_at := 10 }
    NewsTrace.demoHeadline none none
    (by decide) (by norm_num) rfl rfl (by norm_num)

/-- C9 (amended): the haversine great-circle distance is non-negative and
symmetric, and is zero for identical points; the converse ("zero only for
identical points") fails at the poles — see the counterexample. -/
theorem haversine_metric_properties (lat1 lng1 lat2 lng2 lat lng : ℝ) :
    0 ≤ NewsTrace.haversine lat1 lng1 lat2 lng2 ∧
      NewsTrace.haversine lat1 lng1 lat2 lng2 =
        NewsTrace.haversine lat2 lng2 lat1 lng1 ∧
      NewsTrace.haversine lat lng lat lng = 0 := by
  refine ⟨?_, ?_, ?_⟩
  · simp only [NewsTrace.haversine]
    have h1 : (0 : ℝ) ≤ Real.arcsin (Real.sqrt
        (Real.sin ((lat2 - lat1) * Real.pi / 180 / 2) ^ 2 +
          Real.cos (lat1 * Real.pi / 180) * Real.cos (lat2 * Real.pi / 180) *
            Real.sin ((lng2 - lng1) * Real.pi / 180 / 2) ^ 2)) :=
      Real.arcsin_nonneg.mpr (Real.sqrt_nonneg _)
    nlinarith
  · simp only [NewsTrace.haversine]
    have hs : ∀ x : ℝ, Real.sin (-x) ^ 2 = Real.sin x ^ 2 := by
      intro x
      rw [Real.sin_neg]
      ring
    have h1 : (lat1 - lat2) * Real.pi / 180 / 2 =
        -((lat2 - lat1) * Real.pi / 180 / 2) := by ring
    have h2 : (lng1 - lng2) * Real.pi / 180 / 2 =
        -((lng2 - lng1) * Real.pi / 180 / 2) := by ring
    rw [h1, h2, hs, hs]
    ring_nf
  · simp only [NewsTrace.haversine]
    rw [show (lat - lat) * Real.pi / 180 / 2 = 0 by ring,
        show (lng - lng) * Real.pi / 180 / 2 = 0 by ring,
        Real.sin_zero]
    norm_num

/-- C9 counterexample: the two distinct points (90, 0) and (90, 10) — both
with valid latitude and longitude — are at haversine distance 0, so the
distance is not zero only for identical points. -/
theorem haversine_zero_for_distinct_points :
    NewsTrace.haversine 90 0 90 10 = 0 ∧
      ¬ (((90 : ℝ), (0 : ℝ)) = ((90 : ℝ), (10 : ℝ))) ∧
      (-90 ≤ (90 : ℝ) ∧ (90 : ℝ) ≤ 90 ∧
        -180 ≤ (0 : ℝ) ∧ (0 : ℝ) ≤ 180 ∧ -180 ≤ (10 : ℝ) ∧ (10 : ℝ) ≤ 180) := by
  refine ⟨?_, ?_, by norm_num⟩
  · simp only [NewsTrace.haversine]
    rw [show ((90 : ℝ) - 90) * Real.pi / 180 / 2 = 0 by ring,
        show (90 : ℝ) * Real.pi / 180 = Real.pi / 2 by ring,
        Real.sin_zero, Real.cos_pi_div_two]
    norm_num
  · intro hcon
    have h0 := congrArg Prod.snd hcon
    norm_num at h0

/-- C10: in the client, `placeGuess` is a no-op in every state other than
`active` and map clicks are ignored once the current round has a result; in
the engine, submitting against an already-resolved round fails with
`RoundAlreadyResolved`, and a successful SubmitGuess changes nothing but
the current round, whose guess fields transition from absent to present
exactly once (location, number and headline unchanged). -/
theorem guess_absent_to_present_once
    (c1 c2 : NewsTrace.ClientState) (lat1 lng1 lat2 lng2 : ℚ)
    (sa sb s2 : NewsTrace.GameSession)
    (distFn distFn2 : ℚ → ℚ → ℚ → ℚ → ℚ) (glat glng glat2 glng2 : ℚ)
    (resp : NewsTrace.GuessResponse)
    (hc1 : c1.gameState ≠ NewsTrace.GState.active)
    (hc2 : c2.roundResult.isSome = true)
    (ha : sa.state = .roundResolved)
    (hb : NewsTrace.Reachable sb)
    (hsub : NewsTrace.submitGuess distFn sb glat glng = .ok (s2, resp)) :
    NewsTrace.placeGuess c1 lat1 lng1 = c1 ∧
      NewsTrace.mapClick c2 lat2 lng2 = c2 ∧
      NewsTrace.submitGuess distFn2 sa glat2 glng2 =
        .error .roundAlreadyResolved ∧
      s2.rounds.dropLast = sb.rounds.dropLast ∧
      ∃ r, sb.rounds.getLast? = some r ∧ r.result = none ∧
        s2.rounds.getLast? = some (NewsTrace.resolveRound r glat glng
          (distFn glat glng r.location.lat r.location.lng)) ∧
        (NewsTrace.resolveRound r glat glng
          (distFn glat glng r.location.lat r.location.lng)).result.isSome = true ∧
        (NewsTrace.resolveRound r glat glng
          (distFn glat glng r.location.lat r.location.lng)).location = r.location ∧
        (NewsTrace.resolveRound r glat glng
          (distFn glat glng r.location.lat r.location.lng)).number = r.number ∧
        (NewsTrace.resolveRound r glat glng
          (distFn glat glng r.location.lat r.location.lng)).headline = r.headline := by
  have hwf := NewsTrace.reachable_wf hb
  obtain ⟨hst, _, r, hr, hs2, _⟩ := NewsTrace.submitGuess_ok hsub
  obtain ⟨r0, hr0, hr0none⟩ := hwf.2.2.2.2.2.1 hst
  rw [hr] at hr0
  injection hr0 with hr0
  subst hr0
  refine ⟨?_, ?_, ?_, (NewsTrace.submitGuess_wf hwf hsub).2.2.2.2.2.2, ?_⟩
  · unfold NewsTrace.placeGuess
    rw [if_pos hc1]
  · unfold NewsTrace.mapClick
    rw [hc2]
    simp
  · unfold NewsTrace.submitGuess
    rw [ha]
  · refine ⟨r, hr, hr0none, ?_, rfl, rfl, rfl, rfl⟩
    rw [hs2]
    unfold NewsTrace.resolveSession
    simp [List.getLast?_concat]

/-- Witness for C10 on concrete client states, a resolved session and a
concrete successful guess submission. -/
theorem guess_absent_to_present_once_witness :
    NewsTrace.placeGuess NewsTrace.demoClientDone 3 4 =
        NewsTrace.demoClientDone ∧
      NewsTrace.mapClick NewsTrace.demoClientDone 5 6 =
        NewsTrace.demoClientDone ∧
      NewsTrace.submitGuess NewsTrace.demoDist NewsTrace.demoSession2 7 8 =
        .error .roundAlreadyResolved ∧
      NewsTrace.demoSession2.rounds.dropLast =
        NewsTrace.demoSession.rounds.dropLast ∧
      ∃ r, NewsTrace.demoSession.rounds.getLast? = some r ∧ r.result = none ∧
        NewsTrace.demoSession2.rounds.getLast? =
          some (NewsTrace.resolveRound r 0 0
            (NewsTrace.demoDist 0 0 r.location.lat r.location.lng)) ∧
        (NewsTrace.resolveRound r 0 0
          (NewsTrace.demoDist 0 0 r.location.lat r.location.lng)).result.isSome =
            true ∧
        (NewsTrace.resolveRound r 0 0
          (NewsTrace.demoDist 0 0 r.location.lat r.location.lng)).location =
            r.location ∧
        (NewsTrace.resolveRound r 0 0
          (NewsTrace.demoDist 0 0 r.location.lat r.location.lng)).number =
            r.number ∧
        (NewsTrace.resolveRound r 0 0
          (NewsTrace.demoDist 0 0 r.location.lat r.location.lng)).headline =
            r.headline :=
  guess_absent_to_present_once NewsTrace.demoClientDone NewsTrace.demoClientDone
    3 4 5 6 NewsTrace.demoSession2 NewsTrace.demoSession NewsTrace.demoSession2
    NewsTrace.demoDist NewsTrace.demoDist 0 0 7 8 NewsTrace.demoResp
    (by decide) (by decide) rfl
    (NewsTrace.Reachable.created "g1" 2 [NewsTrace.demoLoc1, NewsTrace.demoLoc2]
      [NewsTrace.demoLoc1, NewsTrace.demoLoc2] NewsTrace.demoFetch
      NewsTrace.demoSession NewsTrace.demoStart (by decide))
    (by rw [NewsTrace.submitGuess_eq (r := NewsTrace.demoSession.rounds.head (by decide))
          (by decide) (by decide) (by decide)]
        simp [NewsTrace.demoSession, NewsTrace.demoSession2, NewsTrace.demoDist,
          NewsTrace.resolveSession, NewsTrace.resolveRound, NewsTrace.guessResponse,
          NewsTrace.isFinal, NewsTrace.score_zero, NewsTrace.demoResp,
          NewsTrace.demoLoc1, NewsTrace.demoLoc2, NewsTrace.demoHeadline])
